import Mathlib

/-!
Verification of the cellular-automaton engine in `cellular_automata.py` and
`cellular_w_statistics.py`.

Grids (numpy 2-D uint8 arrays) are modelled as lists of rows of natural
numbers; cell reads out of range default to 0, mirroring the fact that the
scripts only ever index in range.  The in-place update of
`cellular_automata.py`'s `apply_rule` (`grid[:] = 0; grid[mask] = 1`) is
modelled by explicit state passing: each transition function returns the pair
(returned array contents, final contents of the `grid` argument's buffer).
-/

/-- A 2-D array: list of rows. -/
abbrev Grid := List (List Nat)

/-- Read one element of a 2-D array, defaulting out-of-range reads. -/
def cellD {α : Type} (d : α) (g : List (List α)) (r c : Nat) : α :=
  (g.getD r []).getD c d

/-- Read one cell of a numeric grid. -/
def cell (g : Grid) (r c : Nat) : Nat :=
  cellD 0 g r c

/-- Read one cell of a boolean mask. -/
def cellB (m : List (List Bool)) (r c : Nat) : Bool :=
  cellD false m r c

/-- The array has `H` rows, each of length `W` (a well-formed `H × W` array). -/
def IsShape {α : Type} (g : List (List α)) (H W : Nat) : Prop :=
  g.length = H ∧ ∀ row ∈ g, row.length = W

instance {α : Type} [DecidableEq α] (g : List (List α)) (H W : Nat) :
    Decidable (IsShape g H W) := by
  unfold IsShape; infer_instance

/-- Every cell of the grid is 0 or 1 (uint8 grids only ever hold 0/1). -/
def Binary (g : Grid) : Prop :=
  ∀ row ∈ g, ∀ v ∈ row, v ≤ 1

instance (g : Grid) : Decidable (Binary g) := by
  unfold Binary; infer_instance

/-! ### Basic indexing lemmas -/

theorem getD_of_lt {α : Type} (l : List α) (d : α) {n : Nat} (h : n < l.length) :
    l.getD n d = l[n] := by
  simp [List.getD_eq_getElem?_getD, List.getElem?_eq_getElem h]

theorem row_len {α : Type} {g : List (List α)} {H W r : Nat}
    (h : IsShape g H W) (hr : r < H) : (g.getD r []).length = W := by
  have hlen : r < g.length := h.1 ▸ hr
  rw [getD_of_lt _ _ hlen]
  exact h.2 _ (g.getElem_mem hlen)

theorem cellD_zip2 {α β γ : Type} (da : α) (db : β) (dc : γ) (f : α → β → γ)
    {a : List (List α)} {b : List (List β)} {r c : Nat}
    (har : r < a.length) (hbr : r < b.length)
    (hac : c < (a.getD r []).length) (hbc : c < (b.getD r []).length) :
    cellD dc (List.zipWith (List.zipWith f) a b) r c =
      f (cellD da a r c) (cellD db b r c) := by
  unfold cellD
  have h1 : r < (List.zipWith (List.zipWith f) a b).length := by
    rw [List.length_zipWith]; exact lt_min har hbr
  rw [getD_of_lt _ _ h1, List.getElem_zipWith]
  rw [getD_of_lt _ _ har] at hac
  rw [getD_of_lt _ _ hbr] at hbc
  have h2 : c < (List.zipWith f a[r] b[r]).length := by
    rw [List.length_zipWith]; exact lt_min hac hbc
  rw [getD_of_lt _ _ h2, List.getElem_zipWith,
    getD_of_lt _ _ har, getD_of_lt _ _ hbr,
    getD_of_lt _ _ hac, getD_of_lt _ _ hbc]

theorem cellD_map2 {α β : Type} (da : α) (db : β) (f : α → β)
    {a : List (List α)} {r c : Nat}
    (har : r < a.length) (hac : c < (a.getD r []).length) :
    cellD db (a.map (List.map f)) r c = f (cellD da a r c) := by
  unfold cellD
  have h1 : r < (a.map (List.map f)).length := by
    rw [List.length_map]; exact har
  rw [getD_of_lt _ _ h1, List.getElem_map]
  rw [getD_of_lt _ _ har] at hac ⊢
  have h2 : c < (List.map f a[r]).length := by
    rw [List.length_map]; exact hac
  rw [getD_of_lt _ _ h2, List.getElem_map, getD_of_lt _ _ hac]

theorem cellD_ofTable {α : Type} (d : α) (f : Nat → Nat → α) {H W r c : Nat}
    (hr : r < H) (hc : c < W) :
    cellD d ((List.range H).map fun i => (List.range W).map fun j => f i j) r c
      = f r c := by
  unfold cellD
  have h1 : r < ((List.range H).map fun i => (List.range W).map fun j => f i j).length := by
    rw [List.length_map, List.length_range]; exact hr
  rw [getD_of_lt _ _ h1, List.getElem_map, List.getElem_range]
  have h2 : c < ((List.range W).map fun j => f r j).length := by
    rw [List.length_map, List.length_range]; exact hc
  rw [getD_of_lt _ _ h2, List.getElem_map, List.getElem_range]

theorem IsShape.zip2 {α β γ : Type} {f : α → β → γ}
    {a : List (List α)} {b : List (List β)} {H W : Nat}
    (ha : IsShape a H W) (hb : IsShape b H W) :
    IsShape (List.zipWith (List.zipWith f) a b) H W := by
  constructor
  · rw [List.length_zipWith, ha.1, hb.1, Nat.min_self]
  · intro row hrow
    rcases List.mem_iff_getElem.1 hrow with ⟨i, hi, hrow⟩
    rw [List.getElem_zipWith] at hrow
    have hia : i < a.length := by
      have := hi; rw [List.length_zipWith, ha.1, hb.1, Nat.min_self] at this
      exact ha.1 ▸ this
    have hib : i < b.length := by
      have := hi; rw [List.length_zipWith, ha.1, hb.1, Nat.min_self] at this
      exact hb.1 ▸ this
    have la : a[i].length = W := ha.2 _ (a.getElem_mem hia)
    have lb : b[i].length = W := hb.2 _ (b.getElem_mem hib)
    rw [← hrow, List.length_zipWith, la, lb, Nat.min_self]

theorem IsShape.mapGrid {α β : Type} {f : α → β} {a : List (List α)} {H W : Nat}
    (ha : IsShape a H W) : IsShape (a.map (List.map f)) H W := by
  constructor
  · rw [List.length_map, ha.1]
  · intro row hrow
    rcases List.mem_map.1 hrow with ⟨r0, hr0, hrow⟩
    rw [← hrow, List.length_map]
    exact ha.2 _ hr0

theorem IsShape.ofTable {α : Type} (f : Nat → Nat → α) (H W : Nat) :
    IsShape ((List.range H).map fun i => (List.range W).map fun j => f i j) H W := by
  constructor
  · rw [List.length_map, List.length_range]
  · intro row hrow
    rcases List.mem_map.1 hrow with ⟨i, _, hrow⟩
    rw [← hrow, List.length_map, List.length_range]

/-! ### create_kernel

Source (`cellular_automata.py` lines 16-20, identically `cellular_w_statistics.py`
lines 21-25):

    def create_kernel(size):
        kernel = np.ones((size, size), dtype=np.uint8)
        kernel[size // 2, size // 2] = 0  # Exclude the center cell
        return kernel

There is no validation; the only failing input is `size = 0`, where the write
`kernel[0, 0]` is out of bounds and numpy raises `IndexError`. -/

def create_kernel (size : Nat) : Except String Grid :=
  let kernel : Grid := List.replicate size (List.replicate size 1)
  if size = 0 then
    .error "IndexError: index 0 is out of bounds for axis 0 with size 0"
  else
    .ok (kernel.set (size / 2) ((kernel.getD (size / 2) []).set (size / 2) 0))

/-! ### parse_rule

Source (`cellular_automata.py` lines 23-36):

    def parse_rule(rule):
        if '/' not in rule or not rule.startswith('B') or 'S' not in rule:
            raise ValueError("Invalid rule format. Expected 'Bx/Sy'.")
        birth, survive = rule.split('/')
        try:
            birth_conditions = list(map(int, birth[1:]))
            survive_conditions = list(map(int, survive[1:]))
        except ValueError:
            raise ValueError("Invalid rule format. Expected 'Bx/Sy' with numeric values.")
        return birth_conditions, survive_conditions

The three possible `ValueError`s are distinguished by provenance: the format
message, the digits message, and the unpacking error raised by
`birth, survive = rule.split('/')` when the string has more than one `/`. -/

inductive RuleError where
  | invalidFormat : RuleError
  | invalidDigits : RuleError
  | unpackError : RuleError
deriving DecidableEq

deriving instance DecidableEq for Except

/-- Python `int(c)` on a single character: value of a decimal digit, error else. -/
def char_to_int (c : Char) : Option Nat :=
  if c.isDigit then some (c.toNat - 48) else none

/-- Python `list(map(int, s))` over the characters of a digit run. -/
def digit_run (l : List Char) : Option (List Nat) :=
  l.mapM char_to_int

def parse_rule (rule : String) : Except RuleError (List Nat × List Nat) :=
  let l := rule.toList
  if ('/' ∈ l ∧ l.take 1 = ['B'] ∧ 'S' ∈ l) then
    match l.splitOn '/' with
    | [birth, survive] =>
      match digit_run (birth.drop 1), digit_run (survive.drop 1) with
      | some bs, some ss => .ok (bs, ss)
      | _, _ => .error .invalidDigits
    | _ => .error .unpackError
  else .error .invalidFormat

/-- The characters strictly after the first `/` contain an `S`
(the spec's "S after the separator"; the code instead tests `'S' in rule`). -/
def s_after_slash (l : List Char) : Prop :=
  'S' ∈ (l.dropWhile (fun c => c != '/')).drop 1

instance (l : List Char) : Decidable (s_after_slash l) := by
  unfold s_after_slash; infer_instance

/-! ### apply_rule

`cellular_w_statistics.py` lines 56-62 (pure version):

    birth_mask = (grid == 0) & np.isin(neighbors, birth_conditions)
    survive_mask = (grid == 1) & np.isin(neighbors, survive_conditions)
    new_grid = np.zeros_like(grid, dtype=np.uint8)
    new_grid[birth_mask | survive_mask] = 1
    return new_grid

`cellular_automata.py` lines 44-50 (in-place version):

    birth_mask = (grid == 0) & np.isin(neighbors, birth_conditions)
    survive_mask = (grid == 1) & np.isin(neighbors, survive_conditions)
    grid[:] = 0
    grid[birth_mask | survive_mask] = 1
    return grid

Each is modelled as returning (returned array, final contents of the `grid`
argument). -/

/-- Elementwise membership test, `np.isin(v, l)` for one element. -/
def np_isin (v : Nat) (l : List Nat) : Bool :=
  decide (v ∈ l)

def birth_mask (g nb : Grid) (b : List Nat) : List (List Bool) :=
  List.zipWith (List.zipWith fun gv nv => decide (gv = 0) && np_isin nv b) g nb

def survive_mask (g nb : Grid) (s : List Nat) : List (List Bool) :=
  List.zipWith (List.zipWith fun gv nv => decide (gv = 1) && np_isin nv s) g nb

/-- `m1 | m2` on boolean masks. -/
def orMask (m1 m2 : List (List Bool)) : List (List Bool) :=
  List.zipWith (List.zipWith fun x y => x || y) m1 m2

/-- `a[mask] = 1`: set masked positions to 1, keep the rest. -/
def maskSetOne (g : Grid) (m : List (List Bool)) : Grid :=
  List.zipWith (List.zipWith fun v mv => if mv then 1 else v) g m

/-- `np.zeros_like(grid, dtype=np.uint8)`. -/
def zeros_like (g : Grid) : Grid :=
  g.map (List.map fun _ => 0)

/-- `grid[:] = 0`: the contents of the buffer after zeroing in place. -/
def reset_zero (g : Grid) : Grid :=
  g.map (List.map fun _ => 0)

/-- `apply_rule` of `cellular_w_statistics.py`: returns (new grid, untouched input). -/
def apply_rule (g nb : Grid) (b s : List Nat) : Grid × Grid :=
  let bm := birth_mask g nb b
  let sm := survive_mask g nb s
  let new_grid := maskSetOne (zeros_like g) (orMask bm sm)
  (new_grid, g)

/-- `apply_rule` of `cellular_automata.py`: the masks are computed from the
original grid, then the grid buffer is overwritten in place and returned, so
both components are the mutated buffer. -/
def apply_rule_ca (g nb : Grid) (b s : List Nat) : Grid × Grid :=
  let bm := birth_mask g nb b
  let sm := survive_mask g nb s
  let g1 := reset_zero g
  let g2 := maskSetOne g1 (orMask bm sm)
  (g2, g2)

/-! ### compute_neighbors

Source (both scripts):

    def compute_neighbors(grid, kernel):
        return convolve2d(grid, kernel, mode='same', boundary='wrap').astype(np.uint8)

`scipy.signal.convolve2d(in1, in2, mode='same', boundary='wrap')` computes the
true 2-D convolution with cyclic indexing, centred on `in1`: for an odd kernel
side `k` with `o = k / 2`,

    out[r][c] = sum over p, q < k of in2[p][q] * in1[(r + o - p) mod H][(c + o - q) mod W].

The trailing `.astype(np.uint8)` reduces every entry modulo 256. -/

/-- Read a cell under toroidal wraparound of possibly negative indices. -/
def cellWrap (g : Grid) (H W : Nat) (r c : Int) : Nat :=
  cell g (r % (H : Int)).toNat (c % (W : Int)).toNat

/-- `convolve2d(g, ker, mode='same', boundary='wrap')` for an odd-sided kernel. -/
def convolve2d_wrap (g ker : Grid) : Grid :=
  let H := g.length
  let W := (g.headD []).length
  let k := ker.length
  let o := k / 2
  (List.range H).map fun (r : Nat) =>
    (List.range W).map fun (c : Nat) =>
      ∑ p in Finset.range k, ∑ q in Finset.range k,
        cell ker p q *
          cellWrap g H W ((r : Int) + (o : Int) - (p : Int))
            ((c : Int) + (o : Int) - (q : Int))

def compute_neighbors (g ker : Grid) : Grid :=
  (convolve2d_wrap g ker).map (List.map fun v => v % 256)

/-- Modelled from the spec: "For every cell `(r, c)`, the result equals the
number of alive cells at all non-center kernel offsets `(dr, dc)`, evaluated at
`((r+dr) mod H, (c+dc) mod W)`" — the offsets `(dr, dc) = (p - k/2, q - k/2)`
range over the kernel window minus its center; on a 0/1 grid the sum of cell
values is that count. -/
def specNeighborCount (g : Grid) (H W k r c : Nat) : Nat :=
  let o := k / 2
  ∑ p in Finset.range k, ∑ q in Finset.range k,
    if p = o ∧ q = o then 0
    else cellWrap g H W ((r : Int) + ((p : Int) - (o : Int)))
      ((c : Int) + ((q : Int) - (o : Int)))

/-! ### Statistics and the per-frame update (`cellular_w_statistics.py`) -/

/-- `np.sum(grid)`: total of all cells; on a 0/1 grid, the live-cell count. -/
def population (g : Grid) : Nat :=
  (g.map List.sum).sum

/-- `grid.size`: the number of elements. -/
def gridSize (g : Grid) : Nat :=
  (g.map List.length).sum

/-- `compute_entropy` (`cellular_w_statistics.py` lines 41-53), with numpy
floating-point arithmetic modelled over the reals:

    total_cells = grid.size
    p_alive = np.sum(grid) / total_cells
    p_dead = 1 - p_alive
    entropy = 0
    if p_alive > 0: entropy -= p_alive * np.log2(p_alive)
    if p_dead > 0: entropy -= p_dead * np.log2(p_dead)
    return entropy
-/
noncomputable def compute_entropy (g : Grid) : ℝ :=
  let total_cells : ℝ := (gridSize g : Nat)
  let p_alive : ℝ := (population g : ℝ) / total_cells
  let p_dead : ℝ := 1 - p_alive
  (if 0 < p_alive then -(p_alive * Real.logb 2 p_alive) else 0) +
    (if 0 < p_dead then -(p_dead * Real.logb 2 p_dead) else 0)

/-- One generation of `update` (`cellular_w_statistics.py` lines 67-70): compute
neighbors from the current grid, apply the rule, and overwrite the grid buffer
with the new generation (`grid[:] = new_grid`). -/
def update_step (b s : List Nat) (ker : Grid) (g : Grid) : Grid :=
  (apply_rule g (compute_neighbors g ker) b s).1

/-! ### Cell-level characterization of the transition step -/

theorem getD_of_ge {α : Type} (l : List α) (d : α) {n : Nat} (h : l.length ≤ n) :
    l.getD n d = d := by
  simp [List.getD_eq_getElem?_getD, List.getElem?_eq_none h]

theorem cell_zeros_like (g : Grid) (r c : Nat) : cell (zeros_like g) r c = 0 := by
  unfold cell zeros_like cellD
  rcases Nat.lt_or_ge r g.length with hr | hr
  · have h1 : r < (List.map (List.map fun _ => (0 : Nat)) g).length := by
      rw [List.length_map]; exact hr
    rw [getD_of_lt _ [] h1, List.getElem_map]
    rcases Nat.lt_or_ge c g[r].length with hc | hc
    · have h2 : c < (List.map (fun _ => (0 : Nat)) g[r]).length := by
        rw [List.length_map]; exact hc
      rw [getD_of_lt _ 0 h2, List.getElem_map]
    · have h2 : (List.map (fun _ => (0 : Nat)) g[r]).length ≤ c := by
        rw [List.length_map]; exact hc
      rw [getD_of_ge _ 0 h2]
  · have h1 : (List.map (List.map fun _ => (0 : Nat)) g).length ≤ r := by
      rw [List.length_map]; exact hr
    rw [getD_of_ge _ [] h1]
    rfl

theorem cell_maskSetOne {z : Grid} {m : List (List Bool)} {H W r c : Nat}
    (hz : IsShape z H W) (hm : IsShape m H W) (hr : r < H) (hc : c < W) :
    cell (maskSetOne z m) r c = if cellB m r c then 1 else cell z r c := by
  unfold cell cellB maskSetOne
  exact cellD_zip2 0 false 0 _ (hz.1 ▸ hr) (hm.1 ▸ hr)
    (by rw [row_len hz hr]; exact hc) (by rw [row_len hm hr]; exact hc)

theorem cellB_orMask {m1 m2 : List (List Bool)} {H W r c : Nat}
    (h1 : IsShape m1 H W) (h2 : IsShape m2 H W) (hr : r < H) (hc : c < W) :
    cellB (orMask m1 m2) r c = (cellB m1 r c || cellB m2 r c) := by
  unfold cellB orMask
  exact cellD_zip2 false false false _ (h1.1 ▸ hr) (h2.1 ▸ hr)
    (by rw [row_len h1 hr]; exact hc) (by rw [row_len h2 hr]; exact hc)

theorem cellB_birth_mask {g nb : Grid} {b : List Nat} {H W r c : Nat}
    (hg : IsShape g H W) (hnb : IsShape nb H W) (hr : r < H) (hc : c < W) :
    cellB (birth_mask g nb b) r c =
      (decide (cell g r c = 0) && np_isin (cell nb r c) b) := by
  unfold cellB cell birth_mask
  exact cellD_zip2 0 0 false _ (hg.1 ▸ hr) (hnb.1 ▸ hr)
    (by rw [row_len hg hr]; exact hc) (by rw [row_len hnb hr]; exact hc)

theorem cellB_survive_mask {g nb : Grid} {s : List Nat} {H W r c : Nat}
    (hg : IsShape g H W) (hnb : IsShape nb H W) (hr : r < H) (hc : c < W) :
    cellB (survive_mask g nb s) r c =
      (decide (cell g r c = 1) && np_isin (cell nb r c) s) := by
  unfold cellB cell survive_mask
  exact cellD_zip2 0 0 false _ (hg.1 ▸ hr) (hnb.1 ▸ hr)
    (by rw [row_len hg hr]; exact hc) (by rw [row_len hnb hr]; exact hc)

theorem shape_birth_mask {g nb : Grid} {b : List Nat} {H W : Nat}
    (hg : IsShape g H W) (hnb : IsShape nb H W) :
    IsShape (birth_mask g nb b) H W := hg.zip2 hnb

theorem shape_survive_mask {g nb : Grid} {s : List Nat} {H W : Nat}
    (hg : IsShape g H W) (hnb : IsShape nb H W) :
    IsShape (survive_mask g nb s) H W := hg.zip2 hnb

theorem shape_apply_rule {g nb : Grid} {b s : List Nat} {H W : Nat}
    (hg : IsShape g H W) (hnb : IsShape nb H W) :
    IsShape (apply_rule g nb b s).1 H W :=
  (hg.mapGrid).zip2 ((shape_birth_mask hg hnb).zip2 (shape_survive_mask hg hnb))

/-- The per-cell contract of the transition step: the new cell is 1 exactly for
a birth (dead cell, neighbor count in `b`) or a survival (live cell, neighbor
count in `s`), else 0. -/
theorem cell_apply_rule {g nb : Grid} {b s : List Nat} {H W r c : Nat}
    (hg : IsShape g H W) (hnb : IsShape nb H W) (hr : r < H) (hc : c < W) :
    cell (apply_rule g nb b s).1 r c =
      if (cell g r c = 0 ∧ cell nb r c ∈ b) ∨ (cell g r c = 1 ∧ cell nb r c ∈ s)
      then 1 else 0 := by
  have hbm := shape_birth_mask (b := b) hg hnb
  have hsm := shape_survive_mask (s := s) hg hnb
  have hstep : cell (apply_rule g nb b s).1 r c =
      if cellB (orMask (birth_mask g nb b) (survive_mask g nb s)) r c then 1
      else cell (zeros_like g) r c :=
    cell_maskSetOne hg.mapGrid (hbm.zip2 hsm) hr hc
  rw [hstep, cellB_orMask hbm hsm hr hc, cellB_birth_mask hg hnb hr hc,
    cellB_survive_mask hg hnb hr hc, cell_zeros_like]
  simp only [np_isin, Bool.or_eq_true, Bool.and_eq_true, decide_eq_true_eq]

theorem binary_apply_rule {g nb : Grid} {b s : List Nat} {H W : Nat}
    (hg : IsShape g H W) (hnb : IsShape nb H W) :
    Binary (apply_rule g nb b s).1 := by
  have hshape := shape_apply_rule (b := b) (s := s) hg hnb
  intro row hrow v hv
  rcases List.mem_iff_getElem.1 hrow with ⟨r, hrlen, hrow⟩
  rcases List.mem_iff_getElem.1 hv with ⟨c, hclen, hv⟩
  have hr : r < H := hshape.1 ▸ hrlen
  have hc : c < W := by
    have hlen : row.length = W := hshape.2 row (by rw [← hrow]; exact List.getElem_mem hrlen)
    exact hlen ▸ hclen
  have hcell : v = cell (apply_rule g nb b s).1 r c := by
    unfold cell cellD
    rw [getD_of_lt _ _ hrlen, hrow, getD_of_lt _ _ hclen, hv]
  rw [hcell, cell_apply_rule hg hnb hr hc]
  split <;> omega

theorem population_le {g : Grid} {H W : Nat}
    (hsh : IsShape g H W) (hb : Binary g) : population g ≤ H * W := by
  unfold population
  have hbound : ∀ x ∈ g.map List.sum, x ≤ W := by
    intro x hx
    rcases List.mem_map.1 hx with ⟨row, hrow, hsum⟩
    have h1 : row.sum ≤ row.length • 1 := List.sum_le_card_nsmul _ _ (hb row hrow)
    rw [smul_eq_mul, Nat.mul_one, hsh.2 row hrow] at h1
    rw [← hsum]; exact h1
  have h2 : (g.map List.sum).sum ≤ (g.map List.sum).length • W :=
    List.sum_le_card_nsmul _ _ hbound
  rw [smul_eq_mul, List.length_map, hsh.1] at h2
  exact h2

/-! ### Neighbor counting: shape and the wraparound offset formula -/

theorem headD_eq_getD {α : Type} (g : List (List α)) : g.headD [] = g.getD 0 [] := by
  cases g <;> rfl

theorem headD_len {g : Grid} {H W : Nat} (hg : IsShape g H W) (h0 : 0 < H) :
    (g.headD []).length = W := by
  rw [headD_eq_getD]; exact row_len hg h0


theorem IsShape.cast {α : Type} {a : List (List α)} {H W H' W' : Nat}
    (h : IsShape a H W) (hH : H = H') (hW : W = W') : IsShape a H' W' :=
  hH ▸ hW ▸ h

theorem compute_neighbors_def (g ker : Grid) :
    compute_neighbors g ker =
      List.map (List.map fun v => v % 256)
        ((List.range g.length).map fun (i : Nat) =>
          (List.range (g.headD []).length).map fun (j : Nat) =>
            ∑ p in Finset.range ker.length, ∑ q in Finset.range ker.length,
              cell ker p q *
                cellWrap g g.length (g.headD []).length
                  ((i : Int) + (ker.length / 2 : Nat) - (p : Int))
                  ((j : Int) + (ker.length / 2 : Nat) - (q : Int))) := rfl

theorem shape_compute_neighbors {g ker : Grid} {H W : Nat} (hg : IsShape g H W) :
    IsShape (compute_neighbors g ker) H W := by
  rcases Nat.eq_zero_or_pos H with h0 | h0
  · have hnil : g = [] := List.length_eq_zero.1 (h0 ▸ hg.1)
    subst hnil
    constructor
    · show (0 : Nat) = H; omega
    · intro row hrow; cases hrow
  · have hW := headD_len hg h0
    rw [compute_neighbors_def]
    exact (((IsShape.ofTable _ g.length (g.headD []).length).cast hg.1 hW).mapGrid)

theorem cell_compute_neighbors {g ker : Grid} {H W : Nat} (hg : IsShape g H W)
    {r c : Nat} (hr : r < H) (hc : c < W) :
    cell (compute_neighbors g ker) r c =
      (∑ p in Finset.range ker.length, ∑ q in Finset.range ker.length,
        cell ker p q *
          cellWrap g H W ((r : Int) + (ker.length / 2 : Nat) - (p : Int))
            ((c : Int) + (ker.length / 2 : Nat) - (q : Int))) % 256 := by
  have h0 : 0 < H := Nat.lt_of_le_of_lt (Nat.zero_le r) hr
  have hW := headD_len hg h0
  have htab := (IsShape.ofTable
    (fun (i : Nat) (j : Nat) =>
      ∑ p in Finset.range ker.length, ∑ q in Finset.range ker.length,
        cell ker p q *
          cellWrap g g.length (g.headD []).length
            ((i : Int) + (ker.length / 2 : Nat) - (p : Int))
            ((j : Int) + (ker.length / 2 : Nat) - (q : Int)))
    g.length (g.headD []).length).cast hg.1 hW
  rw [compute_neighbors_def]
  show cellD 0 (List.map (List.map fun v => v % 256) _) r c = _
  rw [cellD_map2 0 0 _ (htab.1 ▸ hr) (by rw [row_len htab hr]; exact hc)]
  show (cellD 0 ((List.range g.length).map fun (i : Nat) =>
      (List.range (g.headD []).length).map fun (j : Nat) =>
        ∑ p in Finset.range ker.length, ∑ q in Finset.range ker.length,
          cell ker p q *
            cellWrap g g.length (g.headD []).length
              ((i : Int) + (ker.length / 2 : Nat) - (p : Int))
              ((j : Int) + (ker.length / 2 : Nat) - (q : Int))) r c) % 256 = _
  rw [cellD_ofTable 0 _ (hg.1 ▸ hr) (hW ▸ hc), hg.1, hW]

/-! ### The kernel built by create_kernel, and the convolution as offset counting -/

theorem create_kernel_ok {k : Nat} (hk : k ≠ 0) :
    create_kernel k = .ok ((List.replicate k (List.replicate k (1 : Nat))).set (k / 2)
      (((List.replicate k (List.replicate k (1 : Nat))).getD (k / 2) []).set (k / 2) 0)) := by
  unfold create_kernel
  rw [if_neg hk]

theorem create_kernel_zero :
    create_kernel 0 = .error "IndexError: index 0 is out of bounds for axis 0 with size 0" :=
  rfl

theorem create_kernel_k_ne_zero {k : Nat} {ker : Grid}
    (hker : create_kernel k = .ok ker) : k ≠ 0 := by
  intro h
  subst h
  rw [create_kernel_zero] at hker
  cases hker

theorem create_kernel_val {k : Nat} {ker : Grid} (hker : create_kernel k = .ok ker) :
    ker = (List.replicate k (List.replicate k (1 : Nat))).set (k / 2)
      (((List.replicate k (List.replicate k (1 : Nat))).getD (k / 2) []).set (k / 2) 0) := by
  have hk := create_kernel_k_ne_zero hker
  rw [create_kernel_ok hk] at hker
  cases hker
  rfl

theorem center_row_val {k : Nat} (hk : k ≠ 0) :
    (List.replicate k (List.replicate k (1 : Nat))).getD (k / 2) [] =
      List.replicate k (1 : Nat) := by
  have hlt : k / 2 < k := Nat.div_lt_self (Nat.pos_of_ne_zero hk) (by omega)
  rw [getD_of_lt _ _ (by rw [List.length_replicate]; exact hlt), List.getElem_replicate]

theorem shape_create_kernel {k : Nat} {ker : Grid}
    (hker : create_kernel k = .ok ker) : IsShape ker k k := by
  have hk := create_kernel_k_ne_zero hker
  rw [create_kernel_val hker, center_row_val hk]
  constructor
  · rw [List.length_set, List.length_replicate]
  · intro row hrow
    rcases List.mem_iff_getElem.1 hrow with ⟨i, hi, hrow⟩
    rw [List.getElem_set] at hrow
    rw [← hrow]
    split
    · rw [List.length_set, List.length_replicate]
    · rw [List.getElem_replicate, List.length_replicate]

theorem cell_create_kernel {k : Nat} {ker : Grid} (hker : create_kernel k = .ok ker)
    {p q : Nat} (hp : p < k) (hq : q < k) :
    cell ker p q = if p = k / 2 ∧ q = k / 2 then 0 else 1 := by
  have hk := create_kernel_k_ne_zero hker
  rw [create_kernel_val hker, center_row_val hk]
  unfold cell cellD
  have hplen : p < ((List.replicate k (List.replicate k (1 : Nat))).set (k / 2)
      ((List.replicate k (1 : Nat)).set (k / 2) 0)).length := by
    rw [List.length_set, List.length_replicate]; exact hp
  rw [getD_of_lt _ _ hplen, List.getElem_set]
  by_cases hpc : k / 2 = p
  · rw [if_pos hpc]
    have hqlen : q < ((List.replicate k (1 : Nat)).set (k / 2) 0).length := by
      rw [List.length_set, List.length_replicate]; exact hq
    rw [getD_of_lt _ _ hqlen, List.getElem_set]
    by_cases hqc : k / 2 = q
    · rw [if_pos hqc, if_pos ⟨hpc.symm, hqc.symm⟩]
    · rw [if_neg hqc, List.getElem_replicate,
        if_neg (by intro hand; exact hqc hand.2.symm)]
  · rw [if_neg hpc, List.getElem_replicate]
    have hqlen : q < (List.replicate k (1 : Nat)).length := by
      rw [List.length_replicate]; exact hq
    rw [getD_of_lt _ _ hqlen, List.getElem_replicate,
      if_neg (by intro hand; exact hpc hand.1.symm)]

/-- On a kernel produced by `create_kernel`, the wrap convolution at an
in-range cell is exactly the spec's non-center offset count, reduced mod 256
by the `uint8` cast. -/
theorem conv_eq_spec {g ker : Grid} {H W k : Nat} (hk : k % 2 = 1)
    (hker : create_kernel k = .ok ker) (hg : IsShape g H W)
    {r c : Nat} (hr : r < H) (hc : c < W) :
    cell (compute_neighbors g ker) r c = specNeighborCount g H W k r c % 256 := by
  have hkl : ker.length = k := (shape_create_kernel hker).1
  rw [cell_compute_neighbors hg hr hc, hkl]
  congr 1
  unfold specNeighborCount
  rw [← Finset.sum_range_reflect]
  apply Finset.sum_congr rfl
  intro p hp
  rw [← Finset.sum_range_reflect]
  apply Finset.sum_congr rfl
  intro q hq
  have hp' : p < k := Finset.mem_range.1 hp
  have hq' : q < k := Finset.mem_range.1 hq
  rw [cell_create_kernel hker (by omega) (by omega)]
  by_cases hpq : p = k / 2 ∧ q = k / 2
  · have h1 : k - 1 - p = k / 2 ∧ k - 1 - q = k / 2 := by omega
    rw [if_pos hpq, if_pos h1, Nat.zero_mul]
  · have h1 : ¬(k - 1 - p = k / 2 ∧ k - 1 - q = k / 2) := by omega
    rw [if_neg hpq, if_neg h1, Nat.one_mul]
    have ha : (r : Int) + (k / 2 : Nat) - ((k - 1 - p : Nat) : Int)
        = (r : Int) + (((p : Int) - ((k / 2 : Nat) : Int))) := by omega
    have hb : (c : Int) + (k / 2 : Nat) - ((k - 1 - q : Nat) : Int)
        = (c : Int) + (((q : Int) - ((k / 2 : Nat) : Int))) := by omega
    rw [ha, hb]

/-! ### parse_rule: classification of the failure modes -/

theorem digit_run_none {l : List Char} (h : ∃ ch ∈ l, ch.isDigit = false) :
    digit_run l = none := by
  induction l with
  | nil =>
    rcases h with ⟨ch, hch, _⟩
    cases hch
  | cons a t ih =>
    rcases h with ⟨ch, hch, hd⟩
    rcases List.mem_cons.1 hch with rfl | hmem
    · have hnone : char_to_int ch = none := by
        unfold char_to_int
        rw [hd]
        rfl
      unfold digit_run
      rw [List.mapM_cons, hnone]
      rfl
    · have hnone : digit_run t = none := ih ⟨ch, hmem, hd⟩
      unfold digit_run at hnone ⊢
      rw [List.mapM_cons, hnone]
      cases char_to_int a <;> rfl

theorem parse_rule_format_cases (rule : String) :
    parse_rule rule = .error .invalidFormat ↔
      ¬('/' ∈ rule.toList ∧ rule.toList.take 1 = ['B'] ∧ 'S' ∈ rule.toList) := by
  unfold parse_rule
  by_cases h : ('/' ∈ rule.toList ∧ rule.toList.take 1 = ['B'] ∧ 'S' ∈ rule.toList)
  · rw [if_pos h]
    constructor
    · intro hcontra
      exfalso
      split at hcontra
      · split at hcontra <;> simp at hcontra
      · simp at hcontra
    · intro hn
      exact absurd h hn
  · rw [if_neg h]
    exact ⟨fun _ => h, fun _ => rfl⟩

theorem parse_rule_digits_of_bad (rule : String) (bpart spart : List Char)
    (hfmt : '/' ∈ rule.toList ∧ rule.toList.take 1 = ['B'] ∧ 'S' ∈ rule.toList)
    (hsplit : rule.toList.splitOn '/' = [bpart, spart])
    (hbad : (∃ ch ∈ bpart.drop 1, ch.isDigit = false) ∨
      (∃ ch ∈ spart.drop 1, ch.isDigit = false)) :
    parse_rule rule = .error .invalidDigits := by
  unfold parse_rule
  rw [if_pos hfmt, hsplit]
  show (match digit_run (bpart.drop 1), digit_run (spart.drop 1) with
    | some bs, some ss => Except.ok (bs, ss)
    | _, _ => Except.error RuleError.invalidDigits) = Except.error RuleError.invalidDigits
  rcases hbad with h | h
  · rw [digit_run_none h]
  · rw [digit_run_none h]
    cases digit_run (bpart.drop 1) <;> rfl

/-! ### Only membership in the condition lists is observable in apply_rule -/

theorem apply_rule_mem_ext {g nb : Grid} {b b' s s' : List Nat}
    (hb : ∀ x, x ∈ b ↔ x ∈ b') (hs : ∀ x, x ∈ s ↔ x ∈ s') :
    apply_rule g nb b s = apply_rule g nb b' s' := by
  have hbm : birth_mask g nb b = birth_mask g nb b' := by
    unfold birth_mask np_isin
    have hfun : (fun gv nv => decide (gv = 0) && decide (nv ∈ b)) =
        (fun gv nv => decide (gv = 0) && decide (nv ∈ b')) := by
      funext gv nv
      rw [decide_eq_decide.2 (hb nv)]
    rw [hfun]
  have hsm : survive_mask g nb s = survive_mask g nb s' := by
    unfold survive_mask np_isin
    have hfun : (fun gv nv => decide (gv = 1) && decide (nv ∈ s)) =
        (fun gv nv => decide (gv = 1) && decide (nv ∈ s')) := by
      funext gv nv
      rw [decide_eq_decide.2 (hs nv)]
    rw [hfun]
  unfold apply_rule
  rw [hbm, hsm]

/-! ### Statistics lemmas -/

theorem gridSize_eq {g : Grid} {H W : Nat} (hg : IsShape g H W) :
    gridSize g = H * W := by
  unfold gridSize
  have hrep : g.map List.length = List.replicate H W := by
    rw [List.eq_replicate_iff]
    constructor
    · rw [List.length_map, hg.1]
    · intro x hx
      rcases List.mem_map.1 hx with ⟨row, hrow, hlen⟩
      rw [← hlen]
      exact hg.2 _ hrow
  rw [hrep, List.sum_replicate, smul_eq_mul]

theorem compute_entropy_def (g : Grid) :
    compute_entropy g =
      (if 0 < (population g : ℝ) / (gridSize g : ℝ) then
        -(((population g : ℝ) / (gridSize g : ℝ)) *
          Real.logb 2 ((population g : ℝ) / (gridSize g : ℝ))) else 0) +
      (if 0 < 1 - (population g : ℝ) / (gridSize g : ℝ) then
        -((1 - (population g : ℝ) / (gridSize g : ℝ)) *
          Real.logb 2 (1 - (population g : ℝ) / (gridSize g : ℝ))) else 0) := rfl

theorem compute_entropy_formula {g : Grid} {H W : Nat} (hg : IsShape g H W)
    (hb : Binary g) (hpos : 0 < H * W) :
    compute_entropy g =
      -(((population g : ℝ) / ((H * W : Nat) : ℝ)) *
          Real.logb 2 ((population g : ℝ) / ((H * W : Nat) : ℝ)))
        - (1 - (population g : ℝ) / ((H * W : Nat) : ℝ)) *
          Real.logb 2 (1 - (population g : ℝ) / ((H * W : Nat) : ℝ)) := by
  rw [compute_entropy_def, gridSize_eq hg]
  set p : ℝ := (population g : ℝ) / ((H * W : Nat) : ℝ) with hp
  have hWn : (0 : ℝ) < ((H * W : Nat) : ℝ) := by exact_mod_cast hpos
  have hp0 : 0 ≤ p := div_nonneg (Nat.cast_nonneg _) hWn.le
  have hp1 : p ≤ 1 := by
    rw [hp, div_le_one hWn]
    exact_mod_cast population_le hg hb
  rcases eq_or_lt_of_le hp0 with h0 | h0
  · rw [if_neg (by rw [← h0]; exact lt_irrefl 0), if_pos (by rw [← h0]; norm_num),
      ← h0]
    simp [Real.logb_one]
  · rcases eq_or_lt_of_le hp1 with h1 | h1
    · rw [if_pos h0, if_neg (by rw [h1]; simp), h1]
      simp [Real.logb_one]
    · rw [if_pos h0, if_pos (by linarith)]
      ring

theorem compute_entropy_dead {g : Grid} {H W : Nat} (hg : IsShape g H W)
    (hb : Binary g) (hpos : 0 < H * W) (hdead : population g = 0) :
    compute_entropy g = 0 := by
  rw [compute_entropy_formula hg hb hpos, hdead]
  simp [Real.logb_one]

theorem compute_entropy_full {g : Grid} {H W : Nat} (hg : IsShape g H W)
    (hb : Binary g) (hpos : 0 < H * W) (hfull : population g = H * W) :
    compute_entropy g = 0 := by
  rw [compute_entropy_formula hg hb hpos, hfull]
  have hWn : ((H * W : Nat) : ℝ) ≠ 0 := by
    exact_mod_cast Nat.pos_iff_ne_zero.1 hpos
  rw [div_self hWn]
  simp [Real.logb_one]

theorem compute_entropy_half {g : Grid} {H W : Nat} (hg : IsShape g H W)
    (hb : Binary g) (hpos : 0 < H * W) (hhalf : 2 * population g = H * W) :
    compute_entropy g = 1 := by
  rw [compute_entropy_formula hg hb hpos]
  have hp : (population g : ℝ) / ((H * W : Nat) : ℝ) = 1 / 2 := by
    have hcast : ((H * W : Nat) : ℝ) = 2 * (population g : ℝ) := by
      exact_mod_cast hhalf.symm
    have hpop : (population g : ℝ) ≠ 0 := by
      have : population g ≠ 0 := by omega
      exact_mod_cast this
    rw [hcast]
    field_simp
    ring
  rw [hp]
  have h12 : (1 : ℝ) - 1 / 2 = 1 / 2 := by norm_num
  have hlog : Real.logb 2 (1 / 2 : ℝ) = -1 := by
    rw [show (1 / 2 : ℝ) = 2⁻¹ by norm_num, Real.logb_inv,
      Real.logb_self_eq_one (by norm_num)]
  rw [h12, hlog]
  ring

/-! ### The per-generation update preserves shape and 0/1 cells -/

theorem step_preserves {H W : Nat} {b s : List Nat} {ker g : Grid}
    (h : IsShape g H W ∧ Binary g) :
    IsShape (update_step b s ker g) H W ∧ Binary (update_step b s ker g) := by
  have hnb : IsShape (compute_neighbors g ker) H W := shape_compute_neighbors h.1
  exact ⟨shape_apply_rule h.1 hnb, binary_apply_rule h.1 hnb⟩

theorem iterate_preserves {H W : Nat} {b s : List Nat} {ker g0 : Grid}
    (h0 : IsShape g0 H W) (hb0 : Binary g0) (n : Nat) :
    IsShape ((update_step b s ker)^[n] g0) H W ∧
      Binary ((update_step b s ker)^[n] g0) := by
  induction n with
  | zero => exact ⟨h0, hb0⟩
  | succ n ih =>
    rw [Function.iterate_succ_apply']
    exact step_preserves ih

/-! ## Claims -/

/-- Claim C1: for every binary grid, neighbor-count matrix of the same shape,
and birth/survive condition lists, the grid returned by the transition step has
cell (r,c) equal to 1 iff (the cell was 0 and its count is a birth condition)
or (the cell was 1 and its count is a survive condition), and equal to 0
otherwise; this holds for the returned grid of both scripts' `apply_rule`. -/
theorem claim_c1_transition : ∀ (g nb : Grid) (b s : List Nat) (H W r c : Nat),
    IsShape g H W → IsShape nb H W → Binary g → r < H → c < W →
    ((cell (apply_rule g nb b s).1 r c = 1 ↔
      (cell g r c = 0 ∧ cell nb r c ∈ b) ∨ (cell g r c = 1 ∧ cell nb r c ∈ s)) ∧
    (cell (apply_rule g nb b s).1 r c =
      if (cell g r c = 0 ∧ cell nb r c ∈ b) ∨ (cell g r c = 1 ∧ cell nb r c ∈ s)
      then 1 else 0) ∧
    cell (apply_rule_ca g nb b s).1 r c = cell (apply_rule g nb b s).1 r c) := by
  intro g nb b s H W r c hg hnb _ hr hc
  have h := cell_apply_rule (b := b) (s := s) hg hnb hr hc
  refine ⟨?_, h, rfl⟩
  rw [h]
  by_cases hcond : (cell g r c = 0 ∧ cell nb r c ∈ b) ∨ (cell g r c = 1 ∧ cell nb r c ∈ s)
  · rw [if_pos hcond]
    exact ⟨fun _ => hcond, fun _ => rfl⟩
  · rw [if_neg hcond]
    exact ⟨fun h01 => absurd h01 (by decide), fun hc2 => absurd hc2 hcond⟩

/-- Claim C1 witness: the contract instantiated on a concrete 2-by-2 input. -/
theorem claim_c1_witness :
    (cell (apply_rule [[1, 0], [0, 1]] [[2, 3], [1, 3]] [3] [2, 3]).1 0 0 = 1 ↔
      (cell [[1, 0], [0, 1]] 0 0 = 0 ∧ cell [[2, 3], [1, 3]] 0 0 ∈ [3]) ∨
      (cell [[1, 0], [0, 1]] 0 0 = 1 ∧ cell [[2, 3], [1, 3]] 0 0 ∈ [2, 3])) ∧
    (cell (apply_rule [[1, 0], [0, 1]] [[2, 3], [1, 3]] [3] [2, 3]).1 0 0 =
      if (cell [[1, 0], [0, 1]] 0 0 = 0 ∧ cell [[2, 3], [1, 3]] 0 0 ∈ [3]) ∨
        (cell [[1, 0], [0, 1]] 0 0 = 1 ∧ cell [[2, 3], [1, 3]] 0 0 ∈ [2, 3])
      then 1 else 0) ∧
    cell (apply_rule_ca [[1, 0], [0, 1]] [[2, 3], [1, 3]] [3] [2, 3]).1 0 0 =
      cell (apply_rule [[1, 0], [0, 1]] [[2, 3], [1, 3]] [3] [2, 3]).1 0 0 :=
  claim_c1_transition [[1, 0], [0, 1]] [[2, 3], [1, 3]] [3] [2, 3] 2 2 0 0
    (by decide) (by decide) (by decide) (by decide) (by decide)

/-- Claim C2 (amended): the `uint8` cast truncates neighbor counts modulo 256,
so the value returned by `compute_neighbors` is the spec's non-center wraparound
offset count reduced mod 256 (they agree whenever the count is below 256, in
particular for every 3-by-3 kernel); the two 3-by-3 wraparound particulars hold. -/
theorem claim_c2_neighbor_counts :
    (∀ (g ker : Grid) (H W k r c : Nat),
      k % 2 = 1 → create_kernel k = .ok ker → IsShape g H W → Binary g →
      r < H → c < W →
      cell (compute_neighbors g ker) r c = specNeighborCount g H W k r c % 256) ∧
    create_kernel 3 = .ok [[1, 1, 1], [1, 0, 1], [1, 1, 1]] ∧
    cell (compute_neighbors [[1, 0, 0], [0, 0, 0], [0, 0, 0]]
      [[1, 1, 1], [1, 0, 1], [1, 1, 1]]) 2 2 = 1 ∧
    cell (compute_neighbors [[1, 0, 0], [0, 0, 0], [0, 0, 0]]
      [[1, 1, 1], [1, 0, 1], [1, 1, 1]]) 1 1 = 1 := by
  refine ⟨?_, by decide, by decide, by decide⟩
  intro g ker H W k r c hk hker hg _ hr hc
  exact conv_eq_spec hk hker hg hr hc

/-- Claim C2 witness: the mod-256 count formula instantiated on the 3-by-3
single-alive grid with the Moore kernel. -/
theorem claim_c2_witness :
    cell (compute_neighbors [[1, 0, 0], [0, 0, 0], [0, 0, 0]]
        [[1, 1, 1], [1, 0, 1], [1, 1, 1]]) 2 2 =
      specNeighborCount [[1, 0, 0], [0, 0, 0], [0, 0, 0]] 3 3 3 2 2 % 256 :=
  claim_c2_neighbor_counts.1 [[1, 0, 0], [0, 0, 0], [0, 0, 0]]
    [[1, 1, 1], [1, 0, 1], [1, 1, 1]] 3 3 3 2 2
    (by decide) (by decide) (by decide) (by decide) (by decide) (by decide)

/-- Claim C2 counterexample: on a 17-by-17 all-alive grid with the (odd,
zero-center) 17-by-17 kernel, the true non-center offset count is 288, but the
`uint8`-cast `compute_neighbors` returns 288 mod 256 = 32, so the returned
value is not the count. -/
theorem claim_c2_counterexample :
    17 % 2 = 1 ∧
    create_kernel 17 = .ok ((create_kernel 17).toOption.getD []) ∧
    IsShape (List.replicate 17 (List.replicate 17 (1 : Nat))) 17 17 ∧
    Binary (List.replicate 17 (List.replicate 17 (1 : Nat))) ∧
    specNeighborCount (List.replicate 17 (List.replicate 17 (1 : Nat))) 17 17 17 0 0 = 288 ∧
    cell (compute_neighbors (List.replicate 17 (List.replicate 17 (1 : Nat)))
      ((create_kernel 17).toOption.getD [])) 0 0 = 32 ∧
    cell (compute_neighbors (List.replicate 17 (List.replicate 17 (1 : Nat)))
        ((create_kernel 17).toOption.getD [])) 0 0 ≠
      specNeighborCount (List.replicate 17 (List.replicate 17 (1 : Nat))) 17 17 17 0 0 := by
  decide

/-- Claim C3 (amended): the statistics script's `apply_rule` returns a new grid
and leaves its `grid` argument's buffer unchanged; the automata script's
`apply_rule` overwrites its `grid` argument in place with the new generation
(the same contents the statistics version returns) and returns that buffer. -/
theorem claim_c3_buffer_semantics : ∀ (g nb : Grid) (b s : List Nat),
    (apply_rule g nb b s).2 = g ∧
    (apply_rule_ca g nb b s).2 = (apply_rule g nb b s).1 :=
  fun _ _ _ _ => ⟨rfl, rfl⟩

/-- Claim C3 counterexample: `cellular_automata.py`'s `apply_rule` does mutate
its grid input: on grid [[0]] with neighbor count 3 and birth set containing 3,
the input buffer holds [[1]] after the call, not its original value [[0]]. -/
theorem claim_c3_counterexample :
    (apply_rule_ca [[0]] [[3]] [3] []).2 = [[1]] ∧
    (apply_rule_ca [[0]] [[3]] [3] []).2 ≠ [[0]] := by
  decide

/-- Claim C4 (amended): `parse_rule` fails with the InvalidRuleFormat error
exactly when the string is missing a slash, missing the leading B, or contains
no S anywhere (the code checks `'S' in rule`, not S after the separator); in
particular "3/S23" and "B3S23" fail with InvalidRuleFormat. -/
theorem claim_c4_format_errors :
    (∀ rule : String,
      parse_rule rule = .error .invalidFormat ↔
        ('/' ∉ rule.toList ∨ rule.toList.take 1 ≠ ['B'] ∨ 'S' ∉ rule.toList)) ∧
    parse_rule "3/S23" = .error .invalidFormat ∧
    parse_rule "B3S23" = .error .invalidFormat := by
  refine ⟨fun rule => ?_, by decide, by decide⟩
  rw [parse_rule_format_cases]
  tauto

/-- Claim C4 witness: the characterization applied to the concrete string
"3/23", whose first character is not B. -/
theorem claim_c4_witness : parse_rule "3/23" = .error .invalidFormat :=
  (claim_c4_format_errors.1 "3/23").mpr (Or.inr (Or.inl (by decide)))

/-- Claim C4 counterexample: "BS/23" is missing an S after the separator, yet
`parse_rule` fails with InvalidRuleDigits, not InvalidRuleFormat, because the
code's format check looks for an S anywhere in the string. -/
theorem claim_c4_counterexample :
    ¬(parse_rule "BS/23" = .error .invalidFormat ↔
      ('/' ∉ "BS/23".toList ∨ "BS/23".toList.take 1 ≠ ['B'] ∨
        ¬s_after_slash "BS/23".toList)) := by
  decide

/-- Claim C5: every rule string that passes the structural shape check and
splits into two parts whose digit runs contain a non-digit character fails with
the InvalidRuleDigits error; in particular "Bx/Sy" does. -/
theorem claim_c5_digit_errors :
    (∀ (rule : String) (bpart spart : List Char),
      ('/' ∈ rule.toList ∧ rule.toList.take 1 = ['B'] ∧ 'S' ∈ rule.toList) →
      rule.toList.splitOn '/' = [bpart, spart] →
      ((∃ ch ∈ bpart.drop 1, ch.isDigit = false) ∨
        (∃ ch ∈ spart.drop 1, ch.isDigit = false)) →
      parse_rule rule = .error .invalidDigits) ∧
    parse_rule "Bx/Sy" = .error .invalidDigits :=
  ⟨parse_rule_digits_of_bad, by decide⟩

/-- Claim C5 witness: the digit-error rule applied to "Bx/Sy" itself. -/
theorem claim_c5_witness : parse_rule "Bx/Sy" = .error .invalidDigits :=
  claim_c5_digit_errors.1 "Bx/Sy" ['B', 'x'] ['S', 'y']
    (by decide) (by decide) (by decide)

/-- Claim C6 (amended): `create_kernel` performs no size validation: it fails
(numpy IndexError on the center write) only for size 0; for every size at least
1 — even or odd — it succeeds and returns the all-ones mask with position
(size/2, size/2) zeroed, which for odd size at least 3 is the center. -/
theorem claim_c6_kernel :
    (∀ size : Nat, 1 ≤ size →
      ∃ ker, create_kernel size = .ok ker ∧ IsShape ker size size ∧
        ∀ i, i < size → ∀ j, j < size →
          cell ker i j = if i = size / 2 ∧ j = size / 2 then 0 else 1) ∧
    create_kernel 0 =
      .error "IndexError: index 0 is out of bounds for axis 0 with size 0" := by
  constructor
  · intro size hsize
    have hk : size ≠ 0 := by omega
    exact ⟨_, create_kernel_ok hk, shape_create_kernel (create_kernel_ok hk),
      fun i hi j hj => cell_create_kernel (create_kernel_ok hk) hi hj⟩
  · rfl

/-- Claim C6 witness: the kernel description instantiated at size 3. -/
theorem claim_c6_witness :
    ∃ ker, create_kernel 3 = .ok ker ∧ IsShape ker 3 3 ∧
      ∀ i, i < 3 → ∀ j, j < 3 →
        cell ker i j = if i = 3 / 2 ∧ j = 3 / 2 then 0 else 1 :=
  claim_c6_kernel.1 3 (by decide)

/-- Claim C6 counterexample: size 2 is even (and below 3), yet `create_kernel`
succeeds and returns a kernel instead of an error. -/
theorem claim_c6_counterexample :
    (2 % 2 = 0 ∧ 2 < 3) ∧ create_kernel 2 = .ok [[1, 1], [1, 0]] := by
  decide

/-- Claim C7: with numpy floats modelled over the reals, `compute_entropy`
returns the binary Shannon entropy of the alive fraction p with the convention
0 log2 0 = 0: it equals the closed formula for every binary grid, is exactly 0
on all-dead and all-alive grids, and is 1 (hence within 1e-9 of 1) on
half-alive grids. -/
theorem claim_c7_entropy : ∀ (g : Grid) (H W : Nat),
    IsShape g H W → Binary g → 0 < H * W →
    (compute_entropy g =
      -(((population g : ℝ) / ((H * W : Nat) : ℝ)) *
          Real.logb 2 ((population g : ℝ) / ((H * W : Nat) : ℝ)))
        - (1 - (population g : ℝ) / ((H * W : Nat) : ℝ)) *
          Real.logb 2 (1 - (population g : ℝ) / ((H * W : Nat) : ℝ))) ∧
    (population g = 0 → compute_entropy g = 0) ∧
    (population g = H * W → compute_entropy g = 0) ∧
    (2 * population g = H * W → |compute_entropy g - 1| ≤ 1 / 1000000000) := by
  intro g H W hg hb hpos
  refine ⟨compute_entropy_formula hg hb hpos,
    fun hdead => compute_entropy_dead hg hb hpos hdead,
    fun hfull => compute_entropy_full hg hb hpos hfull,
    fun hhalf => ?_⟩
  rw [compute_entropy_half hg hb hpos hhalf]
  norm_num

/-- Claim C7 witness: the all-dead case on [[0]], the all-alive case on [[1]],
and the half-alive case on [[1, 0]]. -/
theorem claim_c7_witness :
    compute_entropy [[0]] = 0 ∧ compute_entropy [[1]] = 0 ∧
      |compute_entropy [[1, 0]] - 1| ≤ 1 / 1000000000 :=
  ⟨(claim_c7_entropy [[0]] 1 1 (by decide) (by decide) (by decide)).2.1 (by decide),
    (claim_c7_entropy [[1]] 1 1 (by decide) (by decide) (by decide)).2.2.1 (by decide),
    (claim_c7_entropy [[1, 0]] 1 2 (by decide) (by decide) (by decide)).2.2.2 (by decide)⟩

/-- Claim C8: every grid reachable by seeding a binary width-by-height grid and
iterating the transition step keeps every cell 0 or 1 and the same shape, so
its recorded population satisfies 0 ≤ population ≤ width * height. -/
theorem claim_c8_population_bound : ∀ (H W : Nat) (b s : List Nat) (ker g0 : Grid)
    (n : Nat), IsShape g0 H W → Binary g0 →
    0 ≤ population ((update_step b s ker)^[n] g0) ∧
    population ((update_step b s ker)^[n] g0) ≤ W * H ∧
    IsShape ((update_step b s ker)^[n] g0) H W ∧
    Binary ((update_step b s ker)^[n] g0) := by
  intro H W b s ker g0 n h0 hb0
  have h : IsShape ((update_step b s ker)^[n] g0) H W ∧
      Binary ((update_step b s ker)^[n] g0) := iterate_preserves h0 hb0 n
  exact ⟨Nat.zero_le _, by rw [Nat.mul_comm]; exact population_le h.1 h.2, h.1, h.2⟩

/-- Claim C8 witness: two steps of the Conway rule on a concrete 3-by-3 seed. -/
theorem claim_c8_witness :
    0 ≤ population ((update_step [3] [2, 3] [[1, 1, 1], [1, 0, 1], [1, 1, 1]])^[2]
      [[1, 0, 0], [0, 1, 0], [0, 0, 0]]) ∧
    population ((update_step [3] [2, 3] [[1, 1, 1], [1, 0, 1], [1, 1, 1]])^[2]
      [[1, 0, 0], [0, 1, 0], [0, 0, 0]]) ≤ 3 * 3 ∧
    IsShape ((update_step [3] [2, 3] [[1, 1, 1], [1, 0, 1], [1, 1, 1]])^[2]
      [[1, 0, 0], [0, 1, 0], [0, 0, 0]]) 3 3 ∧
    Binary ((update_step [3] [2, 3] [[1, 1, 1], [1, 0, 1], [1, 1, 1]])^[2]
      [[1, 0, 0], [0, 1, 0], [0, 0, 0]]) :=
  claim_c8_population_bound 3 3 [3] [2, 3] [[1, 1, 1], [1, 0, 1], [1, 1, 1]]
    [[1, 0, 0], [0, 1, 0], [0, 0, 0]] 2 (by decide) (by decide)

/-- Claim C9: "B3/S23" parses to birth [3] and survive [2, 3], "B368/S245" to
[3, 6, 8] and [2, 4, 5]; a duplicated digit as in "B33/S23" yields a list with
the same members as [3]; and `apply_rule` (both scripts) observes only list
membership of the conditions, so duplicates are unobservable downstream. -/
theorem claim_c9_parse_results :
    parse_rule "B3/S23" = .ok ([3], [2, 3]) ∧
    parse_rule "B368/S245" = .ok ([3, 6, 8], [2, 4, 5]) ∧
    parse_rule "B33/S23" = .ok ([3, 3], [2, 3]) ∧
    (∀ x : Nat, x ∈ ([3, 3] : List Nat) ↔ x ∈ ([3] : List Nat)) ∧
    (∀ (g nb : Grid) (b b' s s' : List Nat),
      (∀ x, x ∈ b ↔ x ∈ b') → (∀ x, x ∈ s ↔ x ∈ s') →
      apply_rule g nb b s = apply_rule g nb b' s' ∧
      apply_rule_ca g nb b s = apply_rule_ca g nb b' s') := by
  refine ⟨by decide, by decide, by decide, by intro x; simp, ?_⟩
  intro g nb b b' s s' hb hs
  have h : apply_rule g nb b s = apply_rule g nb b' s' := apply_rule_mem_ext hb hs
  constructor
  · exact h
  · show ((apply_rule g nb b s).1, (apply_rule g nb b s).1) =
      ((apply_rule g nb b' s').1, (apply_rule g nb b' s').1)
    rw [h]

/-- Claim C9 witness: the duplicate list [3, 3] and [3] produce identical
transition results on a concrete grid. -/
theorem claim_c9_witness :
    apply_rule [[0]] [[3]] [3, 3] [2, 3] = apply_rule [[0]] [[3]] [3] [2, 3] ∧
    apply_rule_ca [[0]] [[3]] [3, 3] [2, 3] = apply_rule_ca [[0]] [[3]] [3] [2, 3] :=
  claim_c9_parse_results.2.2.2.2 [[0]] [[3]] [3, 3] [3] [2, 3] [2, 3]
    (by intro x; simp) (by intro x; simp)

/-- Claim C10: the two scripts' transition steps are equivalent: on every input,
the grid contents produced by `cellular_automata.py`'s `apply_rule` (its
returned, mutated grid) equal the new grid returned by
`cellular_w_statistics.py`'s `apply_rule`. -/
theorem claim_c10_equivalence : ∀ (g nb : Grid) (b s : List Nat),
    (apply_rule_ca g nb b s).1 = (apply_rule g nb b s).1 :=
  fun _ _ _ _ => rfl
